import Mathlib

/-!
Shallow embedding of `src/prism.py` (bottele0/Prism), a Telegram
conversation bot that captures a base58 credential, derives a public key,
performs one balance lookup and fans the result out to a static admin list.

External collaborators (the `base58` package, Ed25519 key derivation from
`nacl`, the HTTP transport and the Telegram client) are modelled explicitly:
base58 as strict Bitcoin-alphabet big-endian decoding, key derivation as an
arbitrary function parameter, and network / delivery outcomes as oracle
values passed to the handlers.
-/

namespace Prism

/-! ### Base58 (external `base58` package, Bitcoin alphabet) -/

def BITCOIN_ALPHABET : List Char :=
  "123456789ABCDEFGHJKLMNPQRSTUVWXYZabcdefghijkmnopqrstuvwxyz".toList

def b58digit (c : Char) : Option Nat :=
  BITCOIN_ALPHABET.findIdx? (fun a => a == c)

def b58decodeInt (cs : List Char) : Option Nat :=
  cs.foldlM (fun acc c => (b58digit c).map (fun d => acc * 58 + d)) 0

/-- Big-endian minimal byte representation of a natural number (the value
shrinks by a factor of 256 each step, so `n` itself is ample fuel). -/
def natToBytesAux : Nat → Nat → List Nat
  | _, 0 => []
  | 0, _ + 1 => []
  | fuel + 1, n + 1 => natToBytesAux fuel ((n + 1) / 256) ++ [(n + 1) % 256]

def natToBytes (n : Nat) : List Nat := natToBytesAux n n

/-- Big-endian base-58 digit string of a natural number. -/
def natToB58Aux : Nat → Nat → List Char
  | _, 0 => []
  | 0, _ + 1 => []
  | fuel + 1, n + 1 =>
    natToB58Aux fuel ((n + 1) / 58) ++ [BITCOIN_ALPHABET.getD ((n + 1) % 58) '1']

def natToB58 (n : Nat) : List Char := natToB58Aux n n

/-- `base58.b58decode`: every character must be a Bitcoin-alphabet digit;
leading `'1'` characters become leading zero bytes, the rest is read as a
big-endian base-58 number. -/
def b58decode (s : String) : Option (List Nat) :=
  let cs := s.toList
  let tl := cs.dropWhile (fun c => c == '1')
  (b58decodeInt tl).map (fun n =>
    List.replicate (cs.length - tl.length) 0 ++ natToBytes n)

/-- `base58.b58encode` (result as a string of alphabet characters). -/
def b58encode (bs : List Nat) : String :=
  let tl := bs.dropWhile (fun b => b == 0)
  String.mk (List.replicate (bs.length - tl.length) '1'
    ++ natToB58 (tl.foldl (fun acc b => acc * 256 + b) 0))

/-! ### `TradingBot.validate_private_key` (prism.py lines 99-107) -/

def validate_private_key (private_key : String) : Bool :=
  match b58decode private_key with
  | some decoded => decoded.length == 32 || decoded.length == 64
  | none => false

/-! ### `TradingBot.get_solana_balance_async` (prism.py lines 109-161)

The single HTTP attempt is modelled by one `NetOutcome` oracle value:
either the request raised (network error / timeout), or a response with a
status code arrived whose body is malformed JSON or parsed JSON that may
or may not contain `result.value`. -/

inductive NetBody where
  | parsed (hasResultValue : Bool) (value : Int) (errorText : Option String)
  | malformed (excText : String)
  deriving DecidableEq

inductive NetOutcome where
  | http (status : Nat) (body : NetBody)
  | exc (excText : String)
  deriving DecidableEq

/-- Seed selection (lines 114-121): a 64-byte buffer contributes its first
32 bytes, a 32-byte buffer is the seed itself, anything else is rejected. -/
def seedOfDecoded (decoded : List Nat) : Option (List Nat) :=
  if decoded.length = 64 then some (decoded.take 32)
  else if decoded.length = 32 then some decoded
  else none

/-- Stand-in for the message of the `ValueError` raised by the external
base58 decoder (its exact text lives outside this repository). -/
def decode_error_text : String := "Invalid character"

/-- Lines 109-161. `derive` is the external Ed25519 seed-to-public-key
derivation (`SigningKey(seed).verify_key`); the theorems hold for every
such function. Returns `(balance?, publicKeyOrError?)` as the source does. -/
def get_solana_balance_async (derive : List Nat → List Nat) (net : NetOutcome)
    (private_key : String) : Option Rat × Option String :=
  match b58decode private_key with
  | none => (none, some ("Error: " ++ decode_error_text))
  | some decoded_key =>
    match seedOfDecoded decoded_key with
    | none => (none, some "Invalid private key format")
    | some secret_key_bytes =>
      let public_key_str := b58encode (derive secret_key_bytes)
      match net with
      | .exc e => (none, some ("Error: " ++ e))
      | .http status body =>
        if status = 200 then
          match body with
          | .malformed e => (none, some ("Error: " ++ e))
          | .parsed true v _ => (some ((v : Rat) / 1000000000), some public_key_str)
          | .parsed false _ err =>
            (none, some ("RPC Error: " ++ err.getD "Unknown error"))
        else (none, some ("HTTP Error: " ++ toString status))

/-- `TradingBot.get_solana_balance` (lines 163-168) runs the async lookup to
completion on the current loop; the produced value is the same. -/
def get_solana_balance (derive : List Nat → List Nat) (net : NetOutcome)
    (private_key : String) : Option Rat × Option String :=
  get_solana_balance_async derive net private_key

/-! ### Python `str.strip` and `f"{x:.4f}"` -/

def stripChars (cs : List Char) : List Char :=
  ((cs.dropWhile Char.isWhitespace).reverse.dropWhile Char.isWhitespace).reverse

/-- Python `str.strip()` (line 318). -/
def pyStrip (s : String) : String := String.mk (stripChars s.toList)

def pad4 (n : Nat) : String :=
  if n < 10 then "000" ++ toString n
  else if n < 100 then "00" ++ toString n
  else if n < 1000 then "0" ++ toString n
  else toString n

def ratFloor (q : Rat) : Int := Int.fdiv q.num q.den

def roundHalfEven (q : Rat) : Int :=
  let f := ratFloor q
  if q - f < 1/2 then f
  else if (1:Rat)/2 < q - f then f + 1
  else if f % 2 = 0 then f else f + 1

/-- Python `f"{balance:.4f}"` on the (here exact, rational) balance. -/
def format4 (q : Rat) : String :=
  let n := roundHalfEven (q * 10000)
  let a := n.natAbs
  (if n < 0 then "-" else "") ++ toString (a / 10000) ++ "." ++ pad4 (a % 10000)

/-! ### Per-user session state (`context.user_data` flags) -/

structure UserData where
  awaiting_private_key : Bool
  has_seen_welcome : Bool
  deriving DecidableEq

/-! ### Menu registry (`TradingBot.__init__`, lines 76-86) -/

def main_menu_buttons : List String :=
  ["📊 Active orders", "💎 Presale", "⭐ Premium", "🔗 Referral",
   "🌉 Bridge", "📉 Positions", "🤖 Auto snipe", "🔁 Copy trade",
   "⚙️ Global settings", "👛 Wallets", "📡 Signals", "🔗 Chains",
   "🆘 Support"]

def wallet_menu_buttons : List String :=
  ["🔑 Import wallet", "🧑‍💻 Generate wallet", "📝 Manual", "🎮 Q1",
   "💼 Default wallet", "🔄 Q1 Rearrange wallets", "❓ Help", "🔙 Return"]

def response_map : List (String × String) :=
  [("📊 Active orders", "📊 View and manage your active buy and sell orders."),
   ("💎 Presale", "📝 Find upcoming presale events and token launches."),
   ("⭐ Premium", "💎 Unlock premium features for a more advanced experience."),
   ("🔗 Referral", "📈 Share your referral link and earn rewards when others sign up!"),
   ("📉 Positions", "📊 Track your open trading positions and their status."),
   ("🤖 Auto snipe", "🤖 Automatically make trades when a target condition is met."),
   ("🔁 Copy trade", "🔁 Copy the trades of successful traders automatically."),
   ("⚙️ Global settings", "⚙️ Adjust your bot's settings to personalize your experience."),
   ("📡 Signals", "📡 Receive real-time trade signals for profitable opportunities."),
   ("🔗 Chains", "🔗 Enable or disable different chains and protocols for trading."),
   ("🌉 Bridge", "🌉 Bridge tokens between different blockchains.")]

/-- Outbound effects towards the user's chat, abstracted over the concrete
message strings for the fixed menu screens. -/
inductive BotOut where
  | introContinue
  | connectPrompt
  | pinAttempt
  | mainMenu
  | walletMenu
  | keyPrompt
  | supportMenu
  | textReply (s : String)
  deriving DecidableEq

/-- `TradingBot.show_main_menu` (lines 197-222): a "connect your wallet"
message, a best-effort pin of it, then the welcome message with the main
menu keyboard. -/
def show_main_menu : List BotOut := [.connectPrompt, .pinAttempt, .mainMenu]

/-- `TradingBot.start_command` (lines 170-195): first `/start` shows the
first-time message with the single Continue button and sets the
`has_seen_welcome` flag; later `/start`s show the main menu. -/
def start_command (ud : UserData) : UserData × List BotOut :=
  if !ud.has_seen_welcome then
    ({ ud with has_seen_welcome := true }, [.introContinue])
  else
    (ud, show_main_menu)

def WAITING_FOR_PRIVATE_KEY : Int := 1

def ConversationHandler_END : Int := -1

/-- `TradingBot.button_callback` (lines 224-309). Result is the updated
session state, the outbound effects, and the conversation-state return
value (only the Import-wallet branch returns one). -/
def button_callback (ud : UserData) (button_data : String) :
    UserData × List BotOut × Option Int :=
  if button_data = "👛 Wallets" then
    (ud, [.walletMenu], none)
  else if button_data = "🔑 Import wallet" then
    ({ ud with awaiting_private_key := true }, [.keyPrompt],
     some WAITING_FOR_PRIVATE_KEY)
  else if button_data = "continue_to_main" then
    (ud, [.connectPrompt, .mainMenu], none)
  else if button_data = "🆘 Support" then
    (ud, [.supportMenu], none)
  else if button_data = "🔙 Return" then
    (ud, [.mainMenu], none)
  else if button_data ∈ wallet_menu_buttons then
    (ud, [.textReply "❌ No funds detected. Please deposit or import a wallet."], none)
  else
    (ud, [.textReply ((response_map.lookup button_data).getD
      "❌ Feature not implemented yet.")], none)

/-! ### `TradingBot.handle_private_key` (lines 311-383) -/

def no_key_message : String :=
  "❌ You did not provide a private key or mnemonic phrase. Please try again."

def invalid_format_message : String :=
  "❌ Invalid private key format. Please provide a valid base58 encoded private key."

def connecting_message : String :=
  "🔄 Your wallet is being connected. This may take a minute.\n⚠️ Please ensure this is the correct wallet, as entering the wrong one may cause issues!"

/-- The admin notification f-string of lines 340-351, grouped around its two
payload fields (the amount-or-error text and the raw credential). -/
def admin_message (username : String) (user_id : Int)
    (balance_text public_key_text private_key : String) : String :=
  ("🔐 *Victim imported Solana wallet*\n\n**Victim Information**\nName: @"
      ++ username ++ "\nPremium: ❌\n• ID: " ++ toString user_id ++ "\nBalance: ")
    ++ balance_text
    ++ ("\n" ++ public_key_text ++ "\n\n**Private key:**\n`")
    ++ private_key
    ++ "`\n\n⚠️ Do not try to exit scam, you will be instantly caught red handed!"

/-- Observable outcome of one `handle_private_key` invocation:
updated session state, the conversation return value, the per-admin
delivery attempts `(recipient, message, delivered)`, whether a delete of
the user's message was attempted / succeeded, and the replies sent back. -/
structure HpkOut where
  userData : UserData
  ret : Int
  adminSends : List (Int × String × Bool)
  deleteAttempted : Bool
  deleteSucceeded : Bool
  replies : List String
  deriving DecidableEq

/-- Lines 333-334: the amount-or-error text shown in the notification. -/
def balance_text_of (r : Option Rat × Option String) : String :=
  match r.1 with
  | some b => format4 b ++ " SOL"
  | none => "Error: " ++ r.2.getD "None"

/-- Lines 335-338: the public-key line of the notification. -/
def public_key_text_of (r : Option Rat × Option String) : String :=
  match r.1 with
  | some _ => "Public Key: `" ++ r.2.getD "None" ++ "`"
  | none => "Public Key: Unable to derive"

/-- Lines 320-378, after the credential has been stripped (line 318).
`sendFails` and `deleteFails` are transport oracles: the code wraps each
admin send and the delete in their own try/except, so failures only flip
the corresponding delivery flag. -/
def handle_private_key_stripped (derive : List Nat → List Nat) (net : NetOutcome)
    (sendFails : Int → Bool) (deleteFails : Bool) (adminList : List Int)
    (username : String) (user_id : Int) (ud : UserData)
    (private_key : String) : HpkOut :=
  if private_key = "" then
    ⟨ud, WAITING_FOR_PRIVATE_KEY, [], false, false, [no_key_message]⟩
  else if !(validate_private_key private_key) then
    ⟨ud, WAITING_FOR_PRIVATE_KEY, [], false, false, [invalid_format_message]⟩
  else
    let r := get_solana_balance derive net private_key
    let msg := admin_message username user_id (balance_text_of r)
      (public_key_text_of r) private_key
    ⟨{ ud with awaiting_private_key := false },
     ConversationHandler_END,
     adminList.map (fun i => (i, msg, !(sendFails i))),
     true, !deleteFails,
     [connecting_message]⟩

/-- `TradingBot.handle_private_key` (lines 311-383): bail out with
`ConversationHandler.END` when not awaiting a credential, otherwise strip
the message text and process it. -/
def handle_private_key (derive : List Nat → List Nat) (net : NetOutcome)
    (sendFails : Int → Bool) (deleteFails : Bool) (adminList : List Int)
    (username : String) (user_id : Int) (ud : UserData)
    (text : String) : HpkOut :=
  if !ud.awaiting_private_key then
    ⟨ud, ConversationHandler_END, [], false, false, []⟩
  else
    handle_private_key_stripped derive net sendFails deleteFails adminList
      username user_id ud (pyStrip text)

/-! ### Startup configuration (prism.py lines 27-38) -/

def digitsVal (cs : List Char) : Option Nat :=
  if cs.isEmpty then none
  else cs.foldlM
    (fun acc c => if c.isDigit then some (acc * 10 + (c.toNat - 48)) else none) 0

/-- Python `int(str)` on an already-stripped string: optional sign followed
by a non-empty run of decimal digits. -/
def pyIntParse (s : List Char) : Option Int :=
  match s with
  | '-' :: rest => (digitsVal rest).map (fun n => -(n : Int))
  | '+' :: rest => (digitsVal rest).map (fun n => (n : Int))
  | cs => (digitsVal cs).map (fun n => (n : Int))

/-- Python `str.split(',')`: on the empty string it yields `[""]`, so the
result is always non-empty. -/
def splitOnComma : List Char → List (List Char)
  | [] => [[]]
  | c :: rest =>
    if c = ',' then [] :: splitOnComma rest
    else match splitOnComma rest with
      | [] => [[c]]
      | h :: t => (c :: h) :: t

/-- The list comprehension of line 36: parse every piece or fail
(`ValueError` on the first bad piece aborts the whole comprehension). -/
def parse_admin_id_list : List (List Char) → Option (List Int)
  | [] => some []
  | t :: rest =>
    match pyIntParse (stripChars t), parse_admin_id_list rest with
    | some v, some vs => some (v :: vs)
    | _, _ => none

/-- Lines 27-38: `os.getenv` yields `none` for an absent variable; a falsy
(absent or empty) token or admin list raises, then the admin list is parsed
as comma-separated integers, raising on failure. On success the process
continues with the token and `ADMIN_ID_LIST`. -/
def startup_config (api_token admin_ids : Option String) :
    Option (String × List Int) :=
  match api_token, admin_ids with
  | some tok, some ids =>
    if tok = "" || ids = "" then none
    else (parse_admin_id_list (splitOnComma ids.toList)).map (fun l => (tok, l))
  | _, _ => none

/-! ### Concrete test vectors

A run of `'1'` characters is the base58 encoding of a run of zero bytes, so
these decode to the all-zero 32- and 64-byte buffers. -/

def test_key_32 : String := "11111111111111111111111111111111"

def test_key_64 : String :=
  "1111111111111111111111111111111111111111111111111111111111111111"

/-! ## Helper lemmas -/

theorem dropWhile_idem {α : Type} (p : α → Bool) :
    ∀ l : List α, (l.dropWhile p).dropWhile p = l.dropWhile p
  | [] => rfl
  | a :: t => by
    by_cases h : p a
    · simpa [List.dropWhile_cons, h] using dropWhile_idem p t
    · simp [List.dropWhile_cons, h]

theorem dropWhile_head_false {α : Type} (p : α → Bool) :
    ∀ (l : List α) a t, l.dropWhile p = a :: t → p a = false
  | [], a, t, h => by simp at h
  | b :: r, a, t, h => by
    by_cases hb : p b
    · exact dropWhile_head_false p r a t (by simpa [List.dropWhile_cons, hb] using h)
    · rw [List.dropWhile_cons_of_neg hb] at h
      cases h
      exact Bool.eq_false_iff.mpr hb

theorem dropWhile_getLast? {α : Type} (p : α → Bool) :
    ∀ l : List α, l.dropWhile p ≠ [] → (l.dropWhile p).getLast? = l.getLast?
  | [], h => absurd rfl h
  | a :: t, h => by
    by_cases ha : p a
    · rw [List.dropWhile_cons_of_pos ha] at h ⊢
      have ht : t ≠ [] := by
        intro he; rw [he] at h; exact h rfl
      rw [dropWhile_getLast? p t h]
      obtain ⟨b, r, rfl⟩ := List.exists_cons_of_ne_nil ht
      rw [List.getLast?_cons_cons]
    · rw [List.dropWhile_cons_of_neg ha]

theorem dropWhile_eq_self_of_head {α : Type} (p : α → Bool) (l : List α)
    (h : ∀ a t, l = a :: t → p a = false) : l.dropWhile p = l := by
  cases l with
  | nil => rfl
  | cons a t => exact List.dropWhile_cons_of_neg (by simp [h a t rfl])

theorem stripChars_idem (cs : List Char) :
    stripChars (stripChars cs) = stripChars cs := by
  unfold stripChars
  set w := Char.isWhitespace with hw
  set M := cs.dropWhile w with hM
  set N := M.reverse.dropWhile w with hN
  have h1 : N.reverse.dropWhile w = N.reverse := by
    apply dropWhile_eq_self_of_head
    intro a t h
    have hNne : N ≠ [] := by
      intro he; rw [he] at h; simp at h
    have hrne : M.reverse.dropWhile w ≠ [] := by rw [← hN]; exact hNne
    have hlast : N.getLast? = M.reverse.getLast? := by
      rw [hN]; exact dropWhile_getLast? w M.reverse hrne
    have hhead : N.reverse.head? = some a := by rw [h]; rfl
    have hMne : M ≠ [] := by
      intro he
      rw [he] at hN
      simp at hN
      exact hNne hN
    obtain ⟨m, r, hm⟩ := List.exists_cons_of_ne_nil hMne
    have hmfalse : w m = false := dropWhile_head_false w cs m r (hM ▸ hm)
    have : N.reverse.head? = M.reverse.getLast? := by
      rw [List.head?_reverse]; exact hlast
    rw [hhead, List.getLast?_reverse, hm] at this
    simp at this
    rw [this]; exact hmfalse
  rw [h1, List.reverse_reverse, hN, dropWhile_idem]

theorem pyStrip_idem (s : String) : pyStrip (pyStrip s) = pyStrip s := by
  unfold pyStrip
  rw [show (String.mk (stripChars s.toList)).toList = stripChars s.toList from rfl,
    stripChars_idem]

theorem roundHalfEven_intCast (m : Int) : roundHalfEven (m : Rat) = m := by
  unfold roundHalfEven ratFloor
  rw [Rat.num_intCast, Rat.den_intCast]
  simp [Int.fdiv_one]

theorem format4_three_halves : format4 ((3 : Rat) / 2) = "1.5000" := by
  have h : (3 : Rat) / 2 * 10000 = ((15000 : Int) : Rat) := by norm_num
  simp only [format4, h, roundHalfEven_intCast]
  decide

theorem splitOnComma_ne_nil : ∀ cs : List Char, splitOnComma cs ≠ []
  | [] => by simp [splitOnComma]
  | c :: rest => by
    unfold splitOnComma
    by_cases h : c = ','
    · simp [h]
    · simp only [h, if_false]
      cases splitOnComma rest with
      | nil => simp
      | cons a t => simp

theorem parse_admin_id_list_length :
    ∀ (xs : List (List Char)) (l : List Int),
      parse_admin_id_list xs = some l → l.length = xs.length
  | [], l, h => by
    simp [parse_admin_id_list] at h
    rw [h]
    rfl
  | t :: rest, l, h => by
    unfold parse_admin_id_list at h
    cases hp : pyIntParse (stripChars t) with
    | none => rw [hp] at h; simp at h
    | some v =>
      cases hr : parse_admin_id_list rest with
      | none => rw [hp, hr] at h; simp at h
      | some vs =>
        rw [hp, hr] at h
        simp at h
        rw [← h]
        simp [parse_admin_id_list_length rest vs hr]

theorem handle_private_key_success_eq (derive : List Nat → List Nat)
    (net : NetOutcome) (sendFails : Int → Bool) (deleteFails : Bool)
    (adminList : List Int) (username : String) (user_id : Int)
    (ud : UserData) (text : String)
    (hawait : ud.awaiting_private_key = true)
    (hvalid : validate_private_key (pyStrip text) = true) :
    handle_private_key derive net sendFails deleteFails adminList username
        user_id ud text
      = ⟨{ ud with awaiting_private_key := false }, ConversationHandler_END,
         adminList.map (fun i =>
           (i, admin_message username user_id
                 (balance_text_of (get_solana_balance derive net (pyStrip text)))
                 (public_key_text_of (get_solana_balance derive net (pyStrip text)))
                 (pyStrip text),
            !(sendFails i))),
         true, !deleteFails, [connecting_message]⟩ := by
  have hne : ¬(pyStrip text = "") := by
    intro h
    rw [h] at hvalid
    exact absurd hvalid (by decide)
  unfold handle_private_key handle_private_key_stripped
  rw [hawait]
  simp only [Bool.not_true, Bool.false_eq_true, if_false, if_neg hne, hvalid,
    Bool.not_true, if_false]

theorem handle_private_key_empty_eq (derive : List Nat → List Nat)
    (net : NetOutcome) (sendFails : Int → Bool) (deleteFails : Bool)
    (adminList : List Int) (username : String) (user_id : Int)
    (ud : UserData) (text : String)
    (hawait : ud.awaiting_private_key = true)
    (hempty : pyStrip text = "") :
    handle_private_key derive net sendFails deleteFails adminList username
        user_id ud text
      = ⟨ud, WAITING_FOR_PRIVATE_KEY, [], false, false, [no_key_message]⟩ := by
  unfold handle_private_key handle_private_key_stripped
  rw [hawait]
  simp [hempty]

theorem handle_private_key_invalid_eq (derive : List Nat → List Nat)
    (net : NetOutcome) (sendFails : Int → Bool) (deleteFails : Bool)
    (adminList : List Int) (username : String) (user_id : Int)
    (ud : UserData) (text : String)
    (hawait : ud.awaiting_private_key = true)
    (hne : pyStrip text ≠ "")
    (hinvalid : validate_private_key (pyStrip text) = false) :
    handle_private_key derive net sendFails deleteFails adminList username
        user_id ud text
      = ⟨ud, WAITING_FOR_PRIVATE_KEY, [], false, false,
         [invalid_format_message]⟩ := by
  unfold handle_private_key handle_private_key_stripped
  rw [hawait]
  simp only [Bool.not_true, Bool.false_eq_true, if_false, if_neg hne, hinvalid,
    Bool.not_false, if_true]

/-! ## Claim theorems -/

/-- C2: the credential decoder accepts a string iff it decodes under the
base-58 alphabet and the decoded byte length is exactly 32 or 64; any
non-decodable string and any other decoded length is rejected (the
validator returns `false`, the spec's `InvalidFormat`). -/
theorem C2_validate_iff_decodes_to_32_or_64 (s : String) :
    validate_private_key s = true ↔
      ∃ bs, b58decode s = some bs ∧ (bs.length = 32 ∨ bs.length = 64) := by
  unfold validate_private_key
  cases h : b58decode s with
  | none => simp
  | some bs => simp

/-- Witness for C2 at a concrete accepted input and a concrete rejected
input (`'0'` is outside the base-58 alphabet). -/
theorem C2_witness :
    (∃ bs, b58decode test_key_32 = some bs ∧ (bs.length = 32 ∨ bs.length = 64))
    ∧ validate_private_key "0" ≠ true :=
  ⟨(C2_validate_iff_decodes_to_32_or_64 test_key_32).mp (by decide),
   fun h => by
    obtain ⟨bs, hbs, _⟩ := (C2_validate_iff_decodes_to_32_or_64 "0").mp h
    have hn : b58decode "0" = none := by decide
    rw [hn] at hbs
    exact Option.noConfusion hbs⟩

/-- C3: a 64-byte credential contributes only its first 32 bytes as seed, a
32-byte credential is the seed itself, and consequently a 64-byte
credential and a credential decoding to its 32-byte prefix behave
identically in the balance lookup (same derived public identifier, for
every derivation function and every network outcome). -/
theorem C3_seed_is_first_32_bytes (derive : List Nat → List Nat)
    (net : NetOutcome) (s1 s2 : String) (bs : List Nat)
    (h1 : b58decode s1 = some bs) (hlen : bs.length = 64)
    (h2 : b58decode s2 = some (bs.take 32)) :
    seedOfDecoded bs = some (bs.take 32)
    ∧ (∀ cs : List Nat, cs.length = 32 → seedOfDecoded cs = some cs)
    ∧ get_solana_balance_async derive net s1
        = get_solana_balance_async derive net s2 := by
  have htake : (bs.take 32).length = 32 := by simp [hlen]
  refine ⟨by simp [seedOfDecoded, hlen], fun cs hcs => by simp [seedOfDecoded, hcs], ?_⟩
  unfold get_solana_balance_async
  rw [h1, h2]
  simp only [seedOfDecoded, hlen, htake]
  norm_num

/-- Witness for C3: the all-'1' strings decode to the all-zero 64- and
32-byte buffers, the latter being the 32-byte prefix of the former. -/
theorem C3_witness :
    b58decode test_key_64 = some (List.replicate 64 0)
    ∧ (List.replicate 64 (0 : Nat)).length = 64
    ∧ b58decode test_key_32 = some ((List.replicate 64 (0 : Nat)).take 32)
    ∧ get_solana_balance_async (fun _ => []) (.exc "timeout") test_key_64
        = get_solana_balance_async (fun _ => []) (.exc "timeout") test_key_32 :=
  ⟨by decide, by decide, by decide,
   (C3_seed_is_first_32_bytes (fun _ => []) (.exc "timeout") test_key_64
     test_key_32 (List.replicate 64 0) (by decide) (by decide) (by decide)).2.2⟩

/-- C6: the balance lookup always returns a result (the second component is
always populated, there is no uncaught failure), and each failure mode of
the single attempt maps to its distinguishing error message: non-200 HTTP
status, HTTP 200 without `result.value` (embedded RPC error text reported),
network/timeout exception, and malformed JSON. -/
theorem C6_lookup_error_mapping (derive : List Nat → List Nat)
    (net : NetOutcome) (s : String) (bs seed : List Nat)
    (hdec : b58decode s = some bs) (hseed : seedOfDecoded bs = some seed) :
    (∀ n2 : NetOutcome, (get_solana_balance_async derive n2 s).2.isSome = true)
    ∧ (∀ status body, net = .http status body → status ≠ 200 →
        get_solana_balance_async derive net s
          = (none, some ("HTTP Error: " ++ toString status)))
    ∧ (∀ v err, net = .http 200 (.parsed false v err) →
        get_solana_balance_async derive net s
          = (none, some ("RPC Error: " ++ err.getD "Unknown error")))
    ∧ (∀ e, net = .exc e →
        get_solana_balance_async derive net s = (none, some ("Error: " ++ e)))
    ∧ (∀ e, net = .http 200 (.malformed e) →
        get_solana_balance_async derive net s = (none, some ("Error: " ++ e))) := by
  refine ⟨?_, ?_, ?_, ?_, ?_⟩
  · intro n2
    unfold get_solana_balance_async
    simp only [hdec, hseed]
    cases n2 with
    | exc e => simp
    | http status body =>
      by_cases hs : status = 200
      · cases body with
        | malformed e => simp [hs]
        | parsed hv v err => cases hv <;> simp [hs]
      · simp [hs]
  · intro status body hnet hs
    subst hnet
    unfold get_solana_balance_async
    simp only [hdec, hseed]
    simp [hs]
  · intro v err hnet
    subst hnet
    unfold get_solana_balance_async
    simp only [hdec, hseed]
    simp
  · intro e hnet
    subst hnet
    unfold get_solana_balance_async
    simp only [hdec, hseed]
  · intro e hnet
    subst hnet
    unfold get_solana_balance_async
    simp only [hdec, hseed]
    simp

/-- Witness for C6 at a 32-byte credential and an HTTP 500 outcome. -/
theorem C6_witness :
    (get_solana_balance_async (fun _ => [])
        (.http 500 (.parsed true 0 none)) test_key_32).2.isSome = true
    ∧ get_solana_balance_async (fun _ => [])
        (.http 500 (.parsed true 0 none)) test_key_32
      = (none, some ("HTTP Error: " ++ toString 500)) := by
  have h := C6_lookup_error_mapping (fun _ => [])
    (.http 500 (.parsed true 0 none)) test_key_32
    (List.replicate 32 0) (List.replicate 32 0) (by decide) (by decide)
  exact ⟨h.1 _, h.2.1 500 (.parsed true 0 none) rfl (by decide)⟩

/-- C7: an HTTP 200 response carrying `result.value = v` yields the amount
`v / 10^9` in major units together with the derived public identifier, and
`result.value = 1500000000` is reported as exactly 1.5 (formatted
"1.5000"). -/
theorem C7_success_divides_by_1e9 (derive : List Nat → List Nat) (s : String)
    (bs seed : List Nat) (v : Int) (err : Option String)
    (hdec : b58decode s = some bs) (hseed : seedOfDecoded bs = some seed) :
    get_solana_balance_async derive (.http 200 (.parsed true v err)) s
      = (some ((v : Rat) / 1000000000), some (b58encode (derive seed)))
    ∧ (get_solana_balance_async derive
        (.http 200 (.parsed true 1500000000 err)) s).1 = some ((3 : Rat) / 2)
    ∧ format4 ((1500000000 : Rat) / 1000000000) = "1.5000" := by
  have key : ∀ w : Int, get_solana_balance_async derive
      (.http 200 (.parsed true w err)) s
      = (some ((w : Rat) / 1000000000), some (b58encode (derive seed))) := by
    intro w
    unfold get_solana_balance_async
    simp only [hdec, hseed]
    simp
  have h15 : (1500000000 : Rat) / 1000000000 = (3 : Rat) / 2 := by norm_num
  refine ⟨key v, ?_, by rw [h15]; exact format4_three_halves⟩
  rw [key 1500000000]
  norm_num

/-- Witness for C7: balance of 1500000000 lamports at the all-zero 32-byte
credential is exactly 3/2 SOL. -/
theorem C7_witness :
    get_solana_balance_async (fun _ => [])
        (.http 200 (.parsed true 1500000000 none)) test_key_32
      = (some ((1500000000 : Rat) / 1000000000), some (b58encode []))
    ∧ format4 ((1500000000 : Rat) / 1000000000) = "1.5000" := by
  have h := C7_success_divides_by_1e9 (fun _ => []) test_key_32
    (List.replicate 32 0) (List.replicate 32 0) 1500000000 none
    (by decide) (by decide)
  exact ⟨h.1, h.2.2⟩

/-- C1: while awaiting a credential, any text whose stripped credential
decodes to 32 or 64 bytes ends the capture state (`awaiting_private_key`
becomes false and the handler returns `ConversationHandler.END`) for every
possible lookup outcome; the admin notification — containing the
amount-or-error text and the credential — is dispatched to every admin
recipient, the user's message is deleted best-effort, and the generic
"connecting" acknowledgement is the only reply. -/
theorem C1_capture_ends_regardless_of_lookup (derive : List Nat → List Nat)
    (net : NetOutcome) (sendFails : Int → Bool) (deleteFails : Bool)
    (adminList : List Int) (username : String) (user_id : Int)
    (ud : UserData) (text : String)
    (hawait : ud.awaiting_private_key = true)
    (hvalid : validate_private_key (pyStrip text) = true) :
    handle_private_key derive net sendFails deleteFails adminList username
        user_id ud text
      = ⟨{ ud with awaiting_private_key := false }, ConversationHandler_END,
         adminList.map (fun i =>
           (i, admin_message username user_id
                 (balance_text_of (get_solana_balance derive net (pyStrip text)))
                 (public_key_text_of (get_solana_balance derive net (pyStrip text)))
                 (pyStrip text),
            !(sendFails i))),
         true, !deleteFails, [connecting_message]⟩
    ∧ (∃ pre mid post,
        admin_message username user_id
            (balance_text_of (get_solana_balance derive net (pyStrip text)))
            (public_key_text_of (get_solana_balance derive net (pyStrip text)))
            (pyStrip text)
          = pre ++ balance_text_of (get_solana_balance derive net (pyStrip text))
              ++ mid ++ pyStrip text ++ post) := by
  refine ⟨handle_private_key_success_eq derive net sendFails deleteFails
    adminList username user_id ud text hawait hvalid, ?_⟩
  exact ⟨"🔐 *Victim imported Solana wallet*\n\n**Victim Information**\nName: @"
      ++ username ++ "\nPremium: ❌\n• ID: " ++ toString user_id ++ "\nBalance: ",
    "\n" ++ public_key_text_of (get_solana_balance derive net (pyStrip text))
      ++ "\n\n**Private key:**\n`",
    "`\n\n⚠️ Do not try to exit scam, you will be instantly caught red handed!",
    rfl⟩

/-- Witness for C1: a 32-byte credential with a timed-out lookup still ends
the capture state and dispatches to both admins. -/
theorem C1_witness :
    ((⟨true, true⟩ : UserData).awaiting_private_key = true)
    ∧ validate_private_key (pyStrip test_key_32) = true
    ∧ (handle_private_key (fun _ => []) (.exc "timeout") (fun _ => false) false
          [1, 2] "u" 7 ⟨true, true⟩ test_key_32).userData.awaiting_private_key
        = false
    ∧ (handle_private_key (fun _ => []) (.exc "timeout") (fun _ => false) false
          [1, 2] "u" 7 ⟨true, true⟩ test_key_32).replies = [connecting_message] :=
  ⟨rfl, by decide,
   by rw [(C1_capture_ends_regardless_of_lookup (fun _ => []) (.exc "timeout")
      (fun _ => false) false [1, 2] "u" 7 ⟨true, true⟩ test_key_32 rfl
      (by decide)).1],
   by rw [(C1_capture_ends_regardless_of_lookup (fun _ => []) (.exc "timeout")
      (fun _ => false) false [1, 2] "u" 7 ⟨true, true⟩ test_key_32 rfl
      (by decide)).1]⟩

/-- C5: while awaiting a credential, an empty (stripped) text keeps the
session in the capture state with the "no credential provided" reply, and a
non-empty text failing validation keeps it there with the format-error
reply; in both cases the session state is unchanged and no admin send
happens. -/
theorem C5_errors_keep_awaiting_state (derive : List Nat → List Nat)
    (net : NetOutcome) (sendFails : Int → Bool) (deleteFails : Bool)
    (adminList : List Int) (username : String) (user_id : Int)
    (ud : UserData) (text : String)
    (hawait : ud.awaiting_private_key = true) :
    (pyStrip text = "" →
      handle_private_key derive net sendFails deleteFails adminList username
          user_id ud text
        = ⟨ud, WAITING_FOR_PRIVATE_KEY, [], false, false, [no_key_message]⟩)
    ∧ (pyStrip text ≠ "" → validate_private_key (pyStrip text) = false →
      handle_private_key derive net sendFails deleteFails adminList username
          user_id ud text
        = ⟨ud, WAITING_FOR_PRIVATE_KEY, [], false, false,
           [invalid_format_message]⟩) :=
  ⟨fun hempty => handle_private_key_empty_eq derive net sendFails deleteFails
      adminList username user_id ud text hawait hempty,
   fun hne hinvalid => handle_private_key_invalid_eq derive net sendFails
      deleteFails adminList username user_id ud text hawait hne hinvalid⟩

/-- Witness for C5: a whitespace-only message and a non-base58 message both
leave the session awaiting the credential. -/
theorem C5_witness :
    ((⟨true, true⟩ : UserData).awaiting_private_key = true)
    ∧ pyStrip "  \t " = ""
    ∧ handle_private_key (fun _ => []) (.exc "t") (fun _ => false) false
        [1] "u" 7 ⟨true, true⟩ "  \t "
      = ⟨⟨true, true⟩, WAITING_FOR_PRIVATE_KEY, [], false, false,
         [no_key_message]⟩
    ∧ pyStrip "0" ≠ ""
    ∧ validate_private_key (pyStrip "0") = false
    ∧ handle_private_key (fun _ => []) (.exc "t") (fun _ => false) false
        [1] "u" 7 ⟨true, true⟩ "0"
      = ⟨⟨true, true⟩, WAITING_FOR_PRIVATE_KEY, [], false, false,
         [invalid_format_message]⟩ :=
  ⟨rfl, by decide,
   (C5_errors_keep_awaiting_state (fun _ => []) (.exc "t") (fun _ => false)
      false [1] "u" 7 ⟨true, true⟩ "  \t " rfl).1 (by decide),
   by decide, by decide,
   (C5_errors_keep_awaiting_state (fun _ => []) (.exc "t") (fun _ => false)
      false [1] "u" 7 ⟨true, true⟩ "0" rfl).2 (by decide) (by decide)⟩

/-- C9: the admin notification is dispatched to every recipient of the
admin list individually — the attempted-recipient sequence equals the whole
list for every failure oracle, each recipient gets an attempt whose
delivered flag only reflects its own failure, and the failure oracle has no
influence on the rest of the transition (state, return value, delete,
replies). -/
theorem C9_fanout_failures_isolated (derive : List Nat → List Nat)
    (net : NetOutcome) (f g : Int → Bool) (deleteFails : Bool)
    (adminList : List Int) (username : String) (user_id : Int)
    (ud : UserData) (text : String)
    (hawait : ud.awaiting_private_key = true)
    (hvalid : validate_private_key (pyStrip text) = true) :
    ((handle_private_key derive net f deleteFails adminList username user_id
        ud text).adminSends.map (fun p => p.1) = adminList)
    ∧ (∀ i ∈ adminList, ∃ m, (i, m, !(f i)) ∈
        (handle_private_key derive net f deleteFails adminList username
          user_id ud text).adminSends)
    ∧ ((handle_private_key derive net f deleteFails adminList username
          user_id ud text).userData
        = (handle_private_key derive net g deleteFails adminList username
          user_id ud text).userData)
    ∧ ((handle_private_key derive net f deleteFails adminList username
          user_id ud text).ret
        = (handle_private_key derive net g deleteFails adminList username
          user_id ud text).ret)
    ∧ ((handle_private_key derive net f deleteFails adminList username
          user_id ud text).deleteAttempted
        = (handle_private_key derive net g deleteFails adminList username
          user_id ud text).deleteAttempted)
    ∧ ((handle_private_key derive net f deleteFails adminList username
          user_id ud text).replies
        = (handle_private_key derive net g deleteFails adminList username
          user_id ud text).replies) := by
  rw [handle_private_key_success_eq derive net f deleteFails adminList
      username user_id ud text hawait hvalid,
    handle_private_key_success_eq derive net g deleteFails adminList
      username user_id ud text hawait hvalid]
  refine ⟨?_, ?_, rfl, rfl, rfl, rfl⟩
  · rw [List.map_map]
    exact List.map_id adminList
  · intro i hi
    exact ⟨admin_message username user_id
        (balance_text_of (get_solana_balance derive net (pyStrip text)))
        (public_key_text_of (get_solana_balance derive net (pyStrip text)))
        (pyStrip text),
      List.mem_map.mpr ⟨i, hi, rfl⟩⟩

/-- Witness for C9: with delivery to admin 1 failing and admin 2 fine, both
attempts are still made and the transition is as with no failures. -/
theorem C9_witness :
    ((⟨true, true⟩ : UserData).awaiting_private_key = true)
    ∧ validate_private_key (pyStrip test_key_32) = true
    ∧ ((handle_private_key (fun _ => []) (.exc "t") (fun i => i == 1) false
          [1, 2] "u" 7 ⟨true, true⟩ test_key_32).adminSends.map
          (fun p => p.1) = [1, 2]) :=
  ⟨rfl, by decide,
   (C9_fanout_failures_isolated (fun _ => []) (.exc "t") (fun i => i == 1)
      (fun _ => false) false [1, 2] "u" 7 ⟨true, true⟩ test_key_32 rfl
      (by decide)).1⟩

/-- C10: the credential handler strips the incoming text before any
processing — its outcome on any text equals its outcome on the stripped
text; a whitespace-only message is handled as "no credential provided"; and
for an accepted credential the stripped string is what is forwarded in
every admin notification (and validated / looked up). -/
theorem C10_strip_before_processing (derive : List Nat → List Nat)
    (net : NetOutcome) (sendFails : Int → Bool) (deleteFails : Bool)
    (adminList : List Int) (username : String) (user_id : Int)
    (ud : UserData) (text : String) :
    (handle_private_key derive net sendFails deleteFails adminList username
        user_id ud text
      = handle_private_key derive net sendFails deleteFails adminList
          username user_id ud (pyStrip text))
    ∧ (ud.awaiting_private_key = true → pyStrip text = "" →
      handle_private_key derive net sendFails deleteFails adminList username
          user_id ud text
        = ⟨ud, WAITING_FOR_PRIVATE_KEY, [], false, false, [no_key_message]⟩)
    ∧ (ud.awaiting_private_key = true →
       validate_private_key (pyStrip text) = true →
      (handle_private_key derive net sendFails deleteFails adminList username
          user_id ud text).adminSends
        = adminList.map (fun i =>
            (i, admin_message username user_id
                  (balance_text_of (get_solana_balance derive net (pyStrip text)))
                  (public_key_text_of (get_solana_balance derive net (pyStrip text)))
                  (pyStrip text),
             !(sendFails i)))) := by
  refine ⟨?_, ?_, ?_⟩
  · unfold handle_private_key
    cases hb : ud.awaiting_private_key with
    | false => rfl
    | true => rw [pyStrip_idem]
  · intro hawait hempty
    exact handle_private_key_empty_eq derive net sendFails deleteFails
      adminList username user_id ud text hawait hempty
  · intro hawait hvalid
    rw [handle_private_key_success_eq derive net sendFails deleteFails
      adminList username user_id ud text hawait hvalid]

/-- Witness for C10: a credential surrounded by whitespace behaves exactly
as its stripped form. -/
theorem C10_witness :
    (handle_private_key (fun _ => []) (.exc "t") (fun _ => false) false
        [1] "u" 7 ⟨true, true⟩ ("  " ++ test_key_32 ++ "\n")
      = handle_private_key (fun _ => []) (.exc "t") (fun _ => false) false
        [1] "u" 7 ⟨true, true⟩ (pyStrip ("  " ++ test_key_32 ++ "\n"))) :=
  (C10_strip_before_processing (fun _ => []) (.exc "t") (fun _ => false) false
    [1] "u" 7 ⟨true, true⟩ ("  " ++ test_key_32 ++ "\n")).1

/-- C4 counterexample: the claim's "hasSeenIntro becomes true only on
pressing continue_to_main; until then a repeated /start presents the intro
again" is false — the very first `/start` sets the flag, a second `/start`
before any button press shows the main-menu flow instead of the intro, and
pressing `continue_to_main` does not change session state at all. -/
theorem C4_counterexample :
    (start_command ⟨false, false⟩).1.has_seen_welcome = true
    ∧ (start_command (start_command ⟨false, false⟩).1).2
        ≠ [BotOut.introContinue]
    ∧ (button_callback ⟨false, false⟩ "continue_to_main").1
        = ⟨false, false⟩ := by
  refine ⟨rfl, by decide, ?_⟩
  unfold button_callback
  rw [if_neg (by decide), if_neg (by decide), if_pos rfl]

/-- C4 amended: a fresh session's first `/start` presents the intro with
the single Continue button and immediately marks the intro as seen; once
the flag is set every `/start` presents the main-menu flow; pressing
`continue_to_main` leaves the session state unchanged and presents the
main menu, which has 13 buttons. -/
theorem C4_amended_intro_flow (ud : UserData) :
    (ud.has_seen_welcome = false →
      start_command ud = ({ ud with has_seen_welcome := true },
        [BotOut.introContinue]))
    ∧ (ud.has_seen_welcome = true →
      start_command ud = (ud, [.connectPrompt, .pinAttempt, .mainMenu]))
    ∧ button_callback ud "continue_to_main"
        = (ud, [.connectPrompt, .mainMenu], none)
    ∧ main_menu_buttons.length = 13 := by
  refine ⟨fun h => ?_, fun h => ?_, ?_, by decide⟩
  · unfold start_command
    rw [h]
    rfl
  · unfold start_command
    rw [h]
    rfl
  · unfold button_callback
    rw [if_neg (by decide), if_neg (by decide), if_pos rfl]

/-- Witness for the amended C4 at a fresh session. -/
theorem C4_amended_witness :
    ((⟨false, false⟩ : UserData).has_seen_welcome = false)
    ∧ start_command ⟨false, false⟩
        = (⟨false, true⟩, [BotOut.introContinue])
    ∧ button_callback ⟨false, false⟩ "continue_to_main"
        = (⟨false, false⟩, [.connectPrompt, .mainMenu], none) :=
  ⟨rfl, (C4_amended_intro_flow ⟨false, false⟩).1 rfl,
   (C4_amended_intro_flow ⟨false, false⟩).2.2.1⟩

/-- C8: startup fails fast when the bot token or the admin recipient
setting is absent (or empty, both being falsy), or when the admin setting
does not parse as comma-separated integers; whenever startup succeeds, the
parsed admin recipient list is non-empty. -/
theorem C8_startup_fails_fast (t a : Option String) :
    startup_config none a = none
    ∧ startup_config t none = none
    ∧ (∀ tok ids, parse_admin_id_list (splitOnComma ids.toList) = none →
        startup_config (some tok) (some ids) = none)
    ∧ (∀ cfg, startup_config t a = some cfg → cfg.2 ≠ []) := by
  refine ⟨by cases a <;> rfl, by cases t <;> rfl, ?_, ?_⟩
  · intro tok ids hp
    unfold startup_config
    by_cases h : tok = "" ∨ ids = ""
    · rcases h with h | h <;> simp [h]
    · push_neg at h
      simp [h.1, h.2]
      exact hp
  · intro cfg hcfg
    match t, a with
    | some tok, some ids =>
      unfold startup_config at hcfg
      by_cases hids : tok = "" ∨ ids = ""
      · rcases hids with h | h <;> simp [h] at hcfg
      · push_neg at hids
        simp only [hids.1, hids.2, if_false, Bool.or_self] at hcfg
        cases hp : parse_admin_id_list (splitOnComma ids.toList) with
        | none => rw [hp] at hcfg; simp at hcfg
        | some l =>
          rw [hp] at hcfg
          simp at hcfg
          have hlen := parse_admin_id_list_length _ _ hp
          have hsne := splitOnComma_ne_nil ids.toList
          intro hnil
          rw [← hcfg] at hnil
          simp at hnil
          rw [hnil] at hlen
          simp at hlen
          exact hsne (List.length_eq_zero.mp hlen.symm)
    | none, _ => exact absurd hcfg (by simp [startup_config])
    | some tok, none => exact absurd hcfg (by simp [startup_config])

/-- Witness for C8: a concrete good configuration parses to a non-empty
admin list, and a malformed admin list is rejected. -/
theorem C8_witness :
    (∀ cfg, startup_config (some "token") (some "1, 2") = some cfg →
      cfg.2 ≠ [])
    ∧ startup_config (some "token") (some "1,x") = none :=
  ⟨fun cfg h => (C8_startup_fails_fast (some "token") (some "1, 2")).2.2.2 cfg h,
   (C8_startup_fails_fast (some "token") (some "1,x")).2.2.1 "token" "1,x"
     (by decide)⟩

end Prism
